import Mathlib

set_option maxRecDepth 4000

/-
Formal model of the ext4 superblock decoder (`superblock.go` of go-ext4).

The byte source handed to `ParseSuperblock` is modelled as the `List Nat` of
the bytes it successfully yields before end-of-stream or before its first
underlying read error; `binary.Read` performs one full 1024-byte read, so a
source that errors or ends early is exactly a list of fewer than 1024 bytes.
Errors, signalled in the source by panic-with-recover around wrapped error
values, are modelled by the `Except` error branch.
-/

/-- Little-endian value of the `w` bytes of `buf` starting at offset `off`
(out-of-range positions read as 0, as they never occur on the checked path). -/
def readLE (buf : List Nat) : Nat → Nat → Nat
  | _, 0 => 0
  | off, w+1 => buf.getD off 0 + 256 * readLE buf (off+1) w

/-- Little-endian encoding of `v` into exactly `w` bytes. -/
def encodeLE : Nat → Nat → List Nat
  | _, 0 => []
  | v, w+1 => v % 256 :: encodeLE (v / 256) w

/-- The `w`-byte slice of `buf` starting at offset `off`; used for the
`[n]uint8` / `[n]byte` fields, whose decoded value is the raw bytes. -/
def chunk (buf : List Nat) (off w : Nat) : List Nat :=
  (buf.drop off).take w

/-- Decoding of a `[k]uint32` field at offset `off`: the list of the `k`
little-endian 32-bit values at consecutive 4-byte positions. -/
def readArr32 (buf : List Nat) (off k : Nat) : List Nat :=
  (List.range k).map (fun i => readLE buf (off + 4 * i) 4)

/-- Serialization of a `[k]uint32` field: each element as 4 little-endian
bytes, concatenated. -/
def encodeArr32 (l : List Nat) : List Nat :=
  (l.map (fun v => encodeLE v 4)).flatten

/-- Twos-complement reading of an unsigned 32-bit value, for the `int32`
checksum field. -/
def toSigned32 (n : Nat) : Int :=
  if n < 2 ^ 31 then (n : Int) else (n : Int) - 2 ^ 32

/-- The unsigned 32-bit value whose twos-complement reading is `i`. -/
def toUnsigned32 (i : Int) : Nat :=
  (i % 2 ^ 32).toNat

/-- Constant `Ext4Magic` of the source: the mandatory magic value. -/
def Ext4Magic : Nat := 0xef53

/-- Constant `SuperblockSize` of the source: the decoded record size. -/
def SuperblockSize : Nat := 1024

/-- Constant `SbRevlevelGoodOldRev` of the source. -/
def SbRevlevelGoodOldRev : Nat := 0x0

/-- Constant `SbRevlevelDynamicRev` of the source. -/
def SbRevlevelDynamicRev : Nat := 0x1

/-- The two error kinds `ParseSuperblock` can surface: `readFailure` models a
wrapped I/O error out of `binary.Read` (short or failing source), `notExt4`
models the `ErrNotExt4` value raised on a magic mismatch. -/
inductive SbError where
  | readFailure : SbError
  | notExt4 : SbError
deriving DecidableEq
theorem getD_lt (buf : List Nat) (hb : ∀ b ∈ buf, b < 256) (off : Nat) :
    buf.getD off 0 < 256 := by
  rcases Nat.lt_or_ge off buf.length with h | h
  · rw [List.getD_eq_getElem buf 0 h]
    exact hb _ (List.getElem_mem h)
  · rw [List.getD_eq_default buf 0 h]
    omega

theorem readLE_lt (buf : List Nat) (hb : ∀ b ∈ buf, b < 256) :
    ∀ w off, readLE buf off w < 2 ^ (8 * w) := by
  intro w
  induction w with
  | zero => intro off; simp [readLE]
  | succ w ih =>
    intro off
    have h1 : buf.getD off 0 < 256 := getD_lt buf hb off
    have h2 := ih (off+1)
    have hpow : 2 ^ (8 * (w+1)) = 256 * 2 ^ (8 * w) := by
      rw [Nat.mul_succ, pow_add]
      ring
    simp only [readLE, hpow]
    omega

theorem readLE4_lt (buf : List Nat) (hb : ∀ b ∈ buf, b < 256) (off : Nat) :
    readLE buf off 4 < 2 ^ 32 := by
  simpa using readLE_lt buf hb 4 off

theorem encodeLE_readLE (buf : List Nat) (hb : ∀ b ∈ buf, b < 256) :
    ∀ w off, off + w ≤ buf.length →
      encodeLE (readLE buf off w) w = chunk buf off w := by
  intro w
  induction w with
  | zero => intro off _; simp [encodeLE, readLE, chunk]
  | succ w ih =>
    intro off hw
    have hoff : off < buf.length := by omega
    have h1 : buf.getD off 0 < 256 := getD_lt buf hb off
    have hmod : (buf.getD off 0 + 256 * readLE buf (off+1) w) % 256 = buf.getD off 0 := by
      omega
    have hdiv : (buf.getD off 0 + 256 * readLE buf (off+1) w) / 256 = readLE buf (off+1) w := by
      omega
    simp only [readLE, encodeLE, hmod, hdiv]
    rw [ih (off+1) (by omega)]
    simp only [chunk]
    rw [List.getD_eq_getElem buf 0 hoff, List.drop_eq_getElem_cons hoff, List.take_succ_cons]

theorem chunk_append (buf : List Nat) (off a b off2 c : Nat)
    (h1 : off + a = off2) (h2 : a + b = c) :
    chunk buf off a ++ chunk buf off2 b = chunk buf off c := by
  subst h1; subst h2
  simp only [chunk]
  rw [List.take_add]
  congr 1
  rw [List.drop_drop]

theorem chunk_full (buf : List Nat) (h : buf.length = 1024) :
    chunk buf 0 1024 = buf := by
  simp [chunk, ← h]

theorem encodeArr32_readArr32' (buf : List Nat) (hb : ∀ b ∈ buf, b < 256) :
    ∀ k off, off + 4 * k ≤ buf.length →
      encodeArr32 (readArr32 buf off k) = chunk buf off (4 * k) := by
  intro k
  induction k with
  | zero => intro off _; simp [encodeArr32, readArr32, chunk]
  | succ k ih =>
    intro off hk
    have h1 : encodeArr32 (readArr32 buf off (k+1))
        = encodeArr32 (readArr32 buf off k) ++ encodeLE (readLE buf (off + 4 * k) 4) 4 := by
      simp [readArr32, encodeArr32, List.range_succ]
    rw [h1, ih off (by omega), encodeLE_readLE buf hb 4 (off + 4 * k) (by omega)]
    rw [chunk_append buf off (4 * k) 4 (off + 4 * k) (4 * k + 4) rfl rfl]
    have h2 : 4 * (k + 1) = 4 * k + 4 := by ring
    rw [h2]

theorem encodeArr32_readArr32 (buf : List Nat) (hb : ∀ b ∈ buf, b < 256)
    (k off n : Nat) (h1 : 4 * k = n) (h2 : off + n ≤ buf.length) :
    encodeArr32 (readArr32 buf off k) = chunk buf off n := by
  subst h1
  exact encodeArr32_readArr32' buf hb k off h2

theorem u32_round (x : Nat) (h : x < 2 ^ 32) :
    toUnsigned32 (toSigned32 x) = x := by
  simp only [toSigned32, toUnsigned32]
  split <;> omega

theorem readLE_take (l : List Nat) (n : Nat) :
    ∀ w off, off + w ≤ n → readLE (l.take n) off w = readLE l off w := by
  intro w
  induction w with
  | zero => intro off _; simp [readLE]
  | succ w ih =>
    intro off hw
    have hoff : off < n := by omega
    have hg : (l.take n).getD off 0 = l.getD off 0 := by
      simp only [List.getD, List.get?_eq_getElem?]
      rw [List.getElem?_take_of_lt hoff]
    simp only [readLE, hg, ih (off+1) (by omega)]
/-- The `Superblock` struct of the source, one field per Go struct field, in
declaration order.  Unsigned integer fields are `Nat` (the decoder only ever
produces values below `2 ^ width`); fixed byte arrays (`[n]uint8` / `[n]byte`)
are `List Nat` of the raw bytes; `[k]uint32` arrays are `List Nat` of the k
little-endian element values; the `int32` checksum is an `Int` (two's
complement of its 4 bytes). -/
structure Superblock where
  SInodesCount : Nat
  SBlocksCountLo : Nat
  SRBlocksCountLo : Nat
  SFreeBlocksCountLo : Nat
  SFreeInodesCount : Nat
  SFirstDataBlock : Nat
  SLogBlockSize : Nat
  SLogClusterSize : Nat
  SBlocksPerGroup : Nat
  SClustersPerGroup : Nat
  SInodesPerGroup : Nat
  SMtime : Nat
  SWtime : Nat
  SMntCount : Nat
  SMaxMntCount : Nat
  SMagic : Nat
  SState : Nat
  SErrors : Nat
  SMinorRevLevel : Nat
  SLastcheck : Nat
  SCheckinterval : Nat
  SCreatorOs : Nat
  SRevLevel : Nat
  SDefResuid : Nat
  SDefResgid : Nat
  SFirstIno : Nat
  SInodeSize : Nat
  SBlockGroupNr : Nat
  SFeatureCompat : Nat
  SFeatureIncompat : Nat
  SFeatureRoCompat : Nat
  SUuid : List Nat
  SVolumeName : List Nat
  SLastMounted : List Nat
  SAlgorithmUsageBitmap : Nat
  SPreallocBlocks : Nat
  SPreallocDirBlocks : Nat
  SReservedGdtBlocks : Nat
  SJournalUuid : List Nat
  SJournalInum : Nat
  SJournalDev : Nat
  SLastOrphan : Nat
  SHashSeed : List Nat
  SDefHashVersion : Nat
  SJnlBackupType : Nat
  SDescSize : Nat
  SDefaultMountOpts : Nat
  SFirstMetaBg : Nat
  SMkfsTime : Nat
  SJnlBlocks : List Nat
  SBlocksCountHi : Nat
  SRBlocksCountHi : Nat
  SFreeBlocksCountHi : Nat
  SMinExtraIsize : Nat
  SWantExtraIsize : Nat
  SFlags : Nat
  SRaidStride : Nat
  SMmpInterval : Nat
  SMmpBlock : Nat
  SRaidStripeWidth : Nat
  SLogGroupsPerFlex : Nat
  SChecksumType : Nat
  SEncryptionLevel : Nat
  SReservedPad : Nat
  SKbytesWritten : Nat
  SSnapshotInum : Nat
  SSnapshotId : Nat
  SSnapshotRBlocksCount : Nat
  SSnapshotList : Nat
  SErrorCount : Nat
  SFirstErrorTime : Nat
  SFirstErrorIno : Nat
  SFirstErrorBlock : Nat
  SFirstErrorFunc : List Nat
  SFirstErrorLine : Nat
  SLastErrorTime : Nat
  SLastErrorIno : Nat
  SLastErrorLine : Nat
  SLastErrorBlock : Nat
  SLastErrorFunc : List Nat
  SMountOpts : List Nat
  SUsrQuotaInum : Nat
  SGrpQuotaInum : Nat
  SOverheadClusters : Nat
  SBackupBgs : List Nat
  SEncryptAlgos : List Nat
  SEncryptPwSalt : List Nat
  SLpfIno : Nat
  SPrjQuotaInum : Nat
  SChecksumSeed : Nat
  SWtimeHi : Nat
  SMtimeHi : Nat
  SMkfsTimeHi : Nat
  SLastcheckHi : Nat
  SFirstErrorTimeHi : Nat
  SLastErrorTimeHi : Nat
  SPad : List Nat
  SReserved : List Nat
  SChecksum : Int
deriving DecidableEq

/-- The positional field layout of `binary.Read(r, binary.LittleEndian, sb)`:
each field is decoded at the absolute byte offset given by the widths of the
fields declared before it (the offsets match the `0x..` comments in the
source struct), every byte of the 1024-byte block belongs to exactly one
field. -/
def decodeFields (buf : List Nat) : Superblock where
  SInodesCount := readLE buf 0 4
  SBlocksCountLo := readLE buf 4 4
  SRBlocksCountLo := readLE buf 8 4
  SFreeBlocksCountLo := readLE buf 12 4
  SFreeInodesCount := readLE buf 16 4
  SFirstDataBlock := readLE buf 20 4
  SLogBlockSize := readLE buf 24 4
  SLogClusterSize := readLE buf 28 4
  SBlocksPerGroup := readLE buf 32 4
  SClustersPerGroup := readLE buf 36 4
  SInodesPerGroup := readLE buf 40 4
  SMtime := readLE buf 44 4
  SWtime := readLE buf 48 4
  SMntCount := readLE buf 52 2
  SMaxMntCount := readLE buf 54 2
  SMagic := readLE buf 56 2
  SState := readLE buf 58 2
  SErrors := readLE buf 60 2
  SMinorRevLevel := readLE buf 62 2
  SLastcheck := readLE buf 64 4
  SCheckinterval := readLE buf 68 4
  SCreatorOs := readLE buf 72 4
  SRevLevel := readLE buf 76 4
  SDefResuid := readLE buf 80 2
  SDefResgid := readLE buf 82 2
  SFirstIno := readLE buf 84 4
  SInodeSize := readLE buf 88 2
  SBlockGroupNr := readLE buf 90 2
  SFeatureCompat := readLE buf 92 4
  SFeatureIncompat := readLE buf 96 4
  SFeatureRoCompat := readLE buf 100 4
  SUuid := chunk buf 104 16
  SVolumeName := chunk buf 120 16
  SLastMounted := chunk buf 136 64
  SAlgorithmUsageBitmap := readLE buf 200 4
  SPreallocBlocks := readLE buf 204 1
  SPreallocDirBlocks := readLE buf 205 1
  SReservedGdtBlocks := readLE buf 206 2
  SJournalUuid := chunk buf 208 16
  SJournalInum := readLE buf 224 4
  SJournalDev := readLE buf 228 4
  SLastOrphan := readLE buf 232 4
  SHashSeed := readArr32 buf 236 4
  SDefHashVersion := readLE buf 252 1
  SJnlBackupType := readLE buf 253 1
  SDescSize := readLE buf 254 2
  SDefaultMountOpts := readLE buf 256 4
  SFirstMetaBg := readLE buf 260 4
  SMkfsTime := readLE buf 264 4
  SJnlBlocks := readArr32 buf 268 17
  SBlocksCountHi := readLE buf 336 4
  SRBlocksCountHi := readLE buf 340 4
  SFreeBlocksCountHi := readLE buf 344 4
  SMinExtraIsize := readLE buf 348 2
  SWantExtraIsize := readLE buf 350 2
  SFlags := readLE buf 352 4
  SRaidStride := readLE buf 356 2
  SMmpInterval := readLE buf 358 2
  SMmpBlock := readLE buf 360 8
  SRaidStripeWidth := readLE buf 368 4
  SLogGroupsPerFlex := readLE buf 372 1
  SChecksumType := readLE buf 373 1
  SEncryptionLevel := readLE buf 374 1
  SReservedPad := readLE buf 375 1
  SKbytesWritten := readLE buf 376 8
  SSnapshotInum := readLE buf 384 4
  SSnapshotId := readLE buf 388 4
  SSnapshotRBlocksCount := readLE buf 392 8
  SSnapshotList := readLE buf 400 4
  SErrorCount := readLE buf 404 4
  SFirstErrorTime := readLE buf 408 4
  SFirstErrorIno := readLE buf 412 4
  SFirstErrorBlock := readLE buf 416 8
  SFirstErrorFunc := chunk buf 424 32
  SFirstErrorLine := readLE buf 456 4
  SLastErrorTime := readLE buf 460 4
  SLastErrorIno := readLE buf 464 4
  SLastErrorLine := readLE buf 468 4
  SLastErrorBlock := readLE buf 472 8
  SLastErrorFunc := chunk buf 480 32
  SMountOpts := chunk buf 512 64
  SUsrQuotaInum := readLE buf 576 4
  SGrpQuotaInum := readLE buf 580 4
  SOverheadClusters := readLE buf 584 4
  SBackupBgs := readArr32 buf 588 2
  SEncryptAlgos := chunk buf 596 4
  SEncryptPwSalt := chunk buf 600 16
  SLpfIno := readLE buf 616 4
  SPrjQuotaInum := readLE buf 620 4
  SChecksumSeed := readLE buf 624 4
  SWtimeHi := readLE buf 628 1
  SMtimeHi := readLE buf 629 1
  SMkfsTimeHi := readLE buf 630 1
  SLastcheckHi := readLE buf 631 1
  SFirstErrorTimeHi := readLE buf 632 1
  SLastErrorTimeHi := readLE buf 633 1
  SPad := chunk buf 634 2
  SReserved := readArr32 buf 636 96
  SChecksum := toSigned32 (readLE buf 1020 4)

/-- Modelled from the spec (no encoder exists in the source): the serializer
of the round-trip property of spec section 8, writing every field back at its
position, little-endian, in declaration order. -/
def encodeSuperblock (sb : Superblock) : List Nat :=
  encodeLE sb.SInodesCount 4 ++ (encodeLE sb.SBlocksCountLo 4 ++ (encodeLE sb.SRBlocksCountLo 4 ++
    (encodeLE sb.SFreeBlocksCountLo 4 ++ (encodeLE sb.SFreeInodesCount 4 ++
    (encodeLE sb.SFirstDataBlock 4 ++ (encodeLE sb.SLogBlockSize 4 ++
    (encodeLE sb.SLogClusterSize 4 ++ (encodeLE sb.SBlocksPerGroup 4 ++
    (encodeLE sb.SClustersPerGroup 4 ++ (encodeLE sb.SInodesPerGroup 4 ++ (encodeLE sb.SMtime 4 ++
    (encodeLE sb.SWtime 4 ++ (encodeLE sb.SMntCount 2 ++ (encodeLE sb.SMaxMntCount 2 ++
    (encodeLE sb.SMagic 2 ++ (encodeLE sb.SState 2 ++ (encodeLE sb.SErrors 2 ++
    (encodeLE sb.SMinorRevLevel 2 ++ (encodeLE sb.SLastcheck 4 ++ (encodeLE sb.SCheckinterval 4 ++
    (encodeLE sb.SCreatorOs 4 ++ (encodeLE sb.SRevLevel 4 ++ (encodeLE sb.SDefResuid 2 ++
    (encodeLE sb.SDefResgid 2 ++ (encodeLE sb.SFirstIno 4 ++ (encodeLE sb.SInodeSize 2 ++
    (encodeLE sb.SBlockGroupNr 2 ++ (encodeLE sb.SFeatureCompat 4 ++
    (encodeLE sb.SFeatureIncompat 4 ++ (encodeLE sb.SFeatureRoCompat 4 ++ (sb.SUuid ++
    (sb.SVolumeName ++ (sb.SLastMounted ++ (encodeLE sb.SAlgorithmUsageBitmap 4 ++
    (encodeLE sb.SPreallocBlocks 1 ++ (encodeLE sb.SPreallocDirBlocks 1 ++
    (encodeLE sb.SReservedGdtBlocks 2 ++ (sb.SJournalUuid ++ (encodeLE sb.SJournalInum 4 ++
    (encodeLE sb.SJournalDev 4 ++ (encodeLE sb.SLastOrphan 4 ++ (encodeArr32 sb.SHashSeed ++
    (encodeLE sb.SDefHashVersion 1 ++ (encodeLE sb.SJnlBackupType 1 ++ (encodeLE sb.SDescSize 2 ++
    (encodeLE sb.SDefaultMountOpts 4 ++ (encodeLE sb.SFirstMetaBg 4 ++ (encodeLE sb.SMkfsTime 4 ++
    (encodeArr32 sb.SJnlBlocks ++ (encodeLE sb.SBlocksCountHi 4 ++ (encodeLE sb.SRBlocksCountHi 4 ++
    (encodeLE sb.SFreeBlocksCountHi 4 ++ (encodeLE sb.SMinExtraIsize 2 ++
    (encodeLE sb.SWantExtraIsize 2 ++ (encodeLE sb.SFlags 4 ++ (encodeLE sb.SRaidStride 2 ++
    (encodeLE sb.SMmpInterval 2 ++ (encodeLE sb.SMmpBlock 8 ++ (encodeLE sb.SRaidStripeWidth 4 ++
    (encodeLE sb.SLogGroupsPerFlex 1 ++ (encodeLE sb.SChecksumType 1 ++
    (encodeLE sb.SEncryptionLevel 1 ++ (encodeLE sb.SReservedPad 1 ++
    (encodeLE sb.SKbytesWritten 8 ++ (encodeLE sb.SSnapshotInum 4 ++ (encodeLE sb.SSnapshotId 4 ++
    (encodeLE sb.SSnapshotRBlocksCount 8 ++ (encodeLE sb.SSnapshotList 4 ++
    (encodeLE sb.SErrorCount 4 ++ (encodeLE sb.SFirstErrorTime 4 ++ (encodeLE sb.SFirstErrorIno 4 ++
    (encodeLE sb.SFirstErrorBlock 8 ++ (sb.SFirstErrorFunc ++ (encodeLE sb.SFirstErrorLine 4 ++
    (encodeLE sb.SLastErrorTime 4 ++ (encodeLE sb.SLastErrorIno 4 ++ (encodeLE sb.SLastErrorLine 4 ++
    (encodeLE sb.SLastErrorBlock 8 ++ (sb.SLastErrorFunc ++ (sb.SMountOpts ++
    (encodeLE sb.SUsrQuotaInum 4 ++ (encodeLE sb.SGrpQuotaInum 4 ++
    (encodeLE sb.SOverheadClusters 4 ++ (encodeArr32 sb.SBackupBgs ++ (sb.SEncryptAlgos ++
    (sb.SEncryptPwSalt ++ (encodeLE sb.SLpfIno 4 ++ (encodeLE sb.SPrjQuotaInum 4 ++
    (encodeLE sb.SChecksumSeed 4 ++ (encodeLE sb.SWtimeHi 1 ++ (encodeLE sb.SMtimeHi 1 ++
    (encodeLE sb.SMkfsTimeHi 1 ++ (encodeLE sb.SLastcheckHi 1 ++ (encodeLE sb.SFirstErrorTimeHi 1 ++
    (encodeLE sb.SLastErrorTimeHi 1 ++ (sb.SPad ++ (encodeArr32 sb.SReserved ++
    (encodeLE (toUnsigned32 sb.SChecksum) 4))))))))))))))))))))))))))))))))))))))))))))))))))))))))))))))))))))))))))))))))))))))))))))))))))

set_option maxHeartbeats 4000000 in
/-- Writing back the decoded fields in declaration order reproduces the
1024-byte buffer: the absolute offsets used by `decodeFields` are exactly the
partial sums of the field widths, and the widths cover all 1024 bytes. -/
theorem encode_decodeFields (buf : List Nat) (hb : ∀ b ∈ buf, b < 256)
    (hlen : buf.length = 1024) :
    encodeSuperblock (decodeFields buf) = buf := by
  simp only [encodeSuperblock, decodeFields]
  rw [encodeLE_readLE buf hb 4 0 (by omega)]
  rw [encodeLE_readLE buf hb 4 4 (by omega)]
  rw [encodeLE_readLE buf hb 4 8 (by omega)]
  rw [encodeLE_readLE buf hb 4 12 (by omega)]
  rw [encodeLE_readLE buf hb 4 16 (by omega)]
  rw [encodeLE_readLE buf hb 4 20 (by omega)]
  rw [encodeLE_readLE buf hb 4 24 (by omega)]
  rw [encodeLE_readLE buf hb 4 28 (by omega)]
  rw [encodeLE_readLE buf hb 4 32 (by omega)]
  rw [encodeLE_readLE buf hb 4 36 (by omega)]
  rw [encodeLE_readLE buf hb 4 40 (by omega)]
  rw [encodeLE_readLE buf hb 4 44 (by omega)]
  rw [encodeLE_readLE buf hb 4 48 (by omega)]
  rw [encodeLE_readLE buf hb 2 52 (by omega)]
  rw [encodeLE_readLE buf hb 2 54 (by omega)]
  rw [encodeLE_readLE buf hb 2 56 (by omega)]
  rw [encodeLE_readLE buf hb 2 58 (by omega)]
  rw [encodeLE_readLE buf hb 2 60 (by omega)]
  rw [encodeLE_readLE buf hb 2 62 (by omega)]
  rw [encodeLE_readLE buf hb 4 64 (by omega)]
  rw [encodeLE_readLE buf hb 4 68 (by omega)]
  rw [encodeLE_readLE buf hb 4 72 (by omega)]
  rw [encodeLE_readLE buf hb 4 76 (by omega)]
  rw [encodeLE_readLE buf hb 2 80 (by omega)]
  rw [encodeLE_readLE buf hb 2 82 (by omega)]
  rw [encodeLE_readLE buf hb 4 84 (by omega)]
  rw [encodeLE_readLE buf hb 2 88 (by omega)]
  rw [encodeLE_readLE buf hb 2 90 (by omega)]
  rw [encodeLE_readLE buf hb 4 92 (by omega)]
  rw [encodeLE_readLE buf hb 4 96 (by omega)]
  rw [encodeLE_readLE buf hb 4 100 (by omega)]
  rw [encodeLE_readLE buf hb 4 200 (by omega)]
  rw [encodeLE_readLE buf hb 1 204 (by omega)]
  rw [encodeLE_readLE buf hb 1 205 (by omega)]
  rw [encodeLE_readLE buf hb 2 206 (by omega)]
  rw [encodeLE_readLE buf hb 4 224 (by omega)]
  rw [encodeLE_readLE buf hb 4 228 (by omega)]
  rw [encodeLE_readLE buf hb 4 232 (by omega)]
  rw [encodeArr32_readArr32 buf hb 4 236 16 rfl (by omega)]
  rw [encodeLE_readLE buf hb 1 252 (by omega)]
  rw [encodeLE_readLE buf hb 1 253 (by omega)]
  rw [encodeLE_readLE buf hb 2 254 (by omega)]
  rw [encodeLE_readLE buf hb 4 256 (by omega)]
  rw [encodeLE_readLE buf hb 4 260 (by omega)]
  rw [encodeLE_readLE buf hb 4 264 (by omega)]
  rw [encodeArr32_readArr32 buf hb 17 268 68 rfl (by omega)]
  rw [encodeLE_readLE buf hb 4 336 (by omega)]
  rw [encodeLE_readLE buf hb 4 340 (by omega)]
  rw [encodeLE_readLE buf hb 4 344 (by omega)]
  rw [encodeLE_readLE buf hb 2 348 (by omega)]
  rw [encodeLE_readLE buf hb 2 350 (by omega)]
  rw [encodeLE_readLE buf hb 4 352 (by omega)]
  rw [encodeLE_readLE buf hb 2 356 (by omega)]
  rw [encodeLE_readLE buf hb 2 358 (by omega)]
  rw [encodeLE_readLE buf hb 8 360 (by omega)]
  rw [encodeLE_readLE buf hb 4 368 (by omega)]
  rw [encodeLE_readLE buf hb 1 372 (by omega)]
  rw [encodeLE_readLE buf hb 1 373 (by omega)]
  rw [encodeLE_readLE buf hb 1 374 (by omega)]
  rw [encodeLE_readLE buf hb 1 375 (by omega)]
  rw [encodeLE_readLE buf hb 8 376 (by omega)]
  rw [encodeLE_readLE buf hb 4 384 (by omega)]
  rw [encodeLE_readLE buf hb 4 388 (by omega)]
  rw [encodeLE_readLE buf hb 8 392 (by omega)]
  rw [encodeLE_readLE buf hb 4 400 (by omega)]
  rw [encodeLE_readLE buf hb 4 404 (by omega)]
  rw [encodeLE_readLE buf hb 4 408 (by omega)]
  rw [encodeLE_readLE buf hb 4 412 (by omega)]
  rw [encodeLE_readLE buf hb 8 416 (by omega)]
  rw [encodeLE_readLE buf hb 4 456 (by omega)]
  rw [encodeLE_readLE buf hb 4 460 (by omega)]
  rw [encodeLE_readLE buf hb 4 464 (by omega)]
  rw [encodeLE_readLE buf hb 4 468 (by omega)]
  rw [encodeLE_readLE buf hb 8 472 (by omega)]
  rw [encodeLE_readLE buf hb 4 576 (by omega)]
  rw [encodeLE_readLE buf hb 4 580 (by omega)]
  rw [encodeLE_readLE buf hb 4 584 (by omega)]
  rw [encodeArr32_readArr32 buf hb 2 588 8 rfl (by omega)]
  rw [encodeLE_readLE buf hb 4 616 (by omega)]
  rw [encodeLE_readLE buf hb 4 620 (by omega)]
  rw [encodeLE_readLE buf hb 4 624 (by omega)]
  rw [encodeLE_readLE buf hb 1 628 (by omega)]
  rw [encodeLE_readLE buf hb 1 629 (by omega)]
  rw [encodeLE_readLE buf hb 1 630 (by omega)]
  rw [encodeLE_readLE buf hb 1 631 (by omega)]
  rw [encodeLE_readLE buf hb 1 632 (by omega)]
  rw [encodeLE_readLE buf hb 1 633 (by omega)]
  rw [encodeArr32_readArr32 buf hb 96 636 384 rfl (by omega)]
  rw [u32_round (readLE buf 1020 4) (readLE4_lt buf hb 1020)]
  rw [encodeLE_readLE buf hb 4 1020 (by omega)]
  rw [chunk_append buf 636 384 4 1020 388 rfl rfl]
  rw [chunk_append buf 634 2 388 636 390 rfl rfl]
  rw [chunk_append buf 633 1 390 634 391 rfl rfl]
  rw [chunk_append buf 632 1 391 633 392 rfl rfl]
  rw [chunk_append buf 631 1 392 632 393 rfl rfl]
  rw [chunk_append buf 630 1 393 631 394 rfl rfl]
  rw [chunk_append buf 629 1 394 630 395 rfl rfl]
  rw [chunk_append buf 628 1 395 629 396 rfl rfl]
  rw [chunk_append buf 624 4 396 628 400 rfl rfl]
  rw [chunk_append buf 620 4 400 624 404 rfl rfl]
  rw [chunk_append buf 616 4 404 620 408 rfl rfl]
  rw [chunk_append buf 600 16 408 616 424 rfl rfl]
  rw [chunk_append buf 596 4 424 600 428 rfl rfl]
  rw [chunk_append buf 588 8 428 596 436 rfl rfl]
  rw [chunk_append buf 584 4 436 588 440 rfl rfl]
  rw [chunk_append buf 580 4 440 584 444 rfl rfl]
  rw [chunk_append buf 576 4 444 580 448 rfl rfl]
  rw [chunk_append buf 512 64 448 576 512 rfl rfl]
  rw [chunk_append buf 480 32 512 512 544 rfl rfl]
  rw [chunk_append buf 472 8 544 480 552 rfl rfl]
  rw [chunk_append buf 468 4 552 472 556 rfl rfl]
  rw [chunk_append buf 464 4 556 468 560 rfl rfl]
  rw [chunk_append buf 460 4 560 464 564 rfl rfl]
  rw [chunk_append buf 456 4 564 460 568 rfl rfl]
  rw [chunk_append buf 424 32 568 456 600 rfl rfl]
  rw [chunk_append buf 416 8 600 424 608 rfl rfl]
  rw [chunk_append buf 412 4 608 416 612 rfl rfl]
  rw [chunk_append buf 408 4 612 412 616 rfl rfl]
  rw [chunk_append buf 404 4 616 408 620 rfl rfl]
  rw [chunk_append buf 400 4 620 404 624 rfl rfl]
  rw [chunk_append buf 392 8 624 400 632 rfl rfl]
  rw [chunk_append buf 388 4 632 392 636 rfl rfl]
  rw [chunk_append buf 384 4 636 388 640 rfl rfl]
  rw [chunk_append buf 376 8 640 384 648 rfl rfl]
  rw [chunk_append buf 375 1 648 376 649 rfl rfl]
  rw [chunk_append buf 374 1 649 375 650 rfl rfl]
  rw [chunk_append buf 373 1 650 374 651 rfl rfl]
  rw [chunk_append buf 372 1 651 373 652 rfl rfl]
  rw [chunk_append buf 368 4 652 372 656 rfl rfl]
  rw [chunk_append buf 360 8 656 368 664 rfl rfl]
  rw [chunk_append buf 358 2 664 360 666 rfl rfl]
  rw [chunk_append buf 356 2 666 358 668 rfl rfl]
  rw [chunk_append buf 352 4 668 356 672 rfl rfl]
  rw [chunk_append buf 350 2 672 352 674 rfl rfl]
  rw [chunk_append buf 348 2 674 350 676 rfl rfl]
  rw [chunk_append buf 344 4 676 348 680 rfl rfl]
  rw [chunk_append buf 340 4 680 344 684 rfl rfl]
  rw [chunk_append buf 336 4 684 340 688 rfl rfl]
  rw [chunk_append buf 268 68 688 336 756 rfl rfl]
  rw [chunk_append buf 264 4 756 268 760 rfl rfl]
  rw [chunk_append buf 260 4 760 264 764 rfl rfl]
  rw [chunk_append buf 256 4 764 260 768 rfl rfl]
  rw [chunk_append buf 254 2 768 256 770 rfl rfl]
  rw [chunk_append buf 253 1 770 254 771 rfl rfl]
  rw [chunk_append buf 252 1 771 253 772 rfl rfl]
  rw [chunk_append buf 236 16 772 252 788 rfl rfl]
  rw [chunk_append buf 232 4 788 236 792 rfl rfl]
  rw [chunk_append buf 228 4 792 232 796 rfl rfl]
  rw [chunk_append buf 224 4 796 228 800 rfl rfl]
  rw [chunk_append buf 208 16 800 224 816 rfl rfl]
  rw [chunk_append buf 206 2 816 208 818 rfl rfl]
  rw [chunk_append buf 205 1 818 206 819 rfl rfl]
  rw [chunk_append buf 204 1 819 205 820 rfl rfl]
  rw [chunk_append buf 200 4 820 204 824 rfl rfl]
  rw [chunk_append buf 136 64 824 200 888 rfl rfl]
  rw [chunk_append buf 120 16 888 136 904 rfl rfl]
  rw [chunk_append buf 104 16 904 120 920 rfl rfl]
  rw [chunk_append buf 100 4 920 104 924 rfl rfl]
  rw [chunk_append buf 96 4 924 100 928 rfl rfl]
  rw [chunk_append buf 92 4 928 96 932 rfl rfl]
  rw [chunk_append buf 90 2 932 92 934 rfl rfl]
  rw [chunk_append buf 88 2 934 90 936 rfl rfl]
  rw [chunk_append buf 84 4 936 88 940 rfl rfl]
  rw [chunk_append buf 82 2 940 84 942 rfl rfl]
  rw [chunk_append buf 80 2 942 82 944 rfl rfl]
  rw [chunk_append buf 76 4 944 80 948 rfl rfl]
  rw [chunk_append buf 72 4 948 76 952 rfl rfl]
  rw [chunk_append buf 68 4 952 72 956 rfl rfl]
  rw [chunk_append buf 64 4 956 68 960 rfl rfl]
  rw [chunk_append buf 62 2 960 64 962 rfl rfl]
  rw [chunk_append buf 60 2 962 62 964 rfl rfl]
  rw [chunk_append buf 58 2 964 60 966 rfl rfl]
  rw [chunk_append buf 56 2 966 58 968 rfl rfl]
  rw [chunk_append buf 54 2 968 56 970 rfl rfl]
  rw [chunk_append buf 52 2 970 54 972 rfl rfl]
  rw [chunk_append buf 48 4 972 52 976 rfl rfl]
  rw [chunk_append buf 44 4 976 48 980 rfl rfl]
  rw [chunk_append buf 40 4 980 44 984 rfl rfl]
  rw [chunk_append buf 36 4 984 40 988 rfl rfl]
  rw [chunk_append buf 32 4 988 36 992 rfl rfl]
  rw [chunk_append buf 28 4 992 32 996 rfl rfl]
  rw [chunk_append buf 24 4 996 28 1000 rfl rfl]
  rw [chunk_append buf 20 4 1000 24 1004 rfl rfl]
  rw [chunk_append buf 16 4 1004 20 1008 rfl rfl]
  rw [chunk_append buf 12 4 1008 16 1012 rfl rfl]
  rw [chunk_append buf 8 4 1012 12 1016 rfl rfl]
  rw [chunk_append buf 4 4 1016 8 1020 rfl rfl]
  rw [chunk_append buf 0 4 1020 4 1024 rfl rfl]
  exact chunk_full buf hlen
/-- Constant `SbFeatureCompatDirPrealloc` of the source. -/
def SbFeatureCompatDirPrealloc : Nat := 0x0001

/-- Constant `SbFeatureCompatImagicInodes` of the source. -/
def SbFeatureCompatImagicInodes : Nat := 0x0002

/-- Constant `SbFeatureCompatHasJournal` of the source. -/
def SbFeatureCompatHasJournal : Nat := 0x0004

/-- Constant `SbFeatureCompatExtAttr` of the source. -/
def SbFeatureCompatExtAttr : Nat := 0x0008

/-- Constant `SbFeatureCompatResizeInode` of the source. -/
def SbFeatureCompatResizeInode : Nat := 0x0010

/-- Constant `SbFeatureCompatDirIndex` of the source. -/
def SbFeatureCompatDirIndex : Nat := 0x0020

/-- The slice `SbFeatureCompatNames` of the source, in its literal order. -/
def SbFeatureCompatNames : List String :=
  ["DirIndex", "DirPrealloc", "ExtAttr", "HasJournal", "ImagicInodes", "ResizeInode"]

/-- The map `SbFeatureCompatLookup` of the source, as an association list in
the literal order of the source (Go map iteration order is irrelevant: the
map is only indexed by key). -/
def SbFeatureCompatLookup : List (String × Nat) :=
  [("DirPrealloc", SbFeatureCompatDirPrealloc),
   ("ImagicInodes", SbFeatureCompatImagicInodes),
   ("HasJournal", SbFeatureCompatHasJournal),
   ("ExtAttr", SbFeatureCompatExtAttr),
   ("ResizeInode", SbFeatureCompatResizeInode),
   ("DirIndex", SbFeatureCompatDirIndex)]

/-- Constant `SbFeatureRoCompatSparseSuper` of the source. -/
def SbFeatureRoCompatSparseSuper : Nat := 0x0001

/-- Constant `SbFeatureRoCompatLargeFile` of the source. -/
def SbFeatureRoCompatLargeFile : Nat := 0x0002

/-- Constant `SbFeatureRoCompatBtreeDir` of the source. -/
def SbFeatureRoCompatBtreeDir : Nat := 0x0004

/-- Constant `SbFeatureRoCompatHugeFile` of the source. -/
def SbFeatureRoCompatHugeFile : Nat := 0x0008

/-- Constant `SbFeatureRoCompatGdtCsum` of the source. -/
def SbFeatureRoCompatGdtCsum : Nat := 0x0010

/-- Constant `SbFeatureRoCompatDirNlink` of the source. -/
def SbFeatureRoCompatDirNlink : Nat := 0x0020

/-- Constant `SbFeatureRoCompatExtraIsize` of the source. -/
def SbFeatureRoCompatExtraIsize : Nat := 0x0040

/-- The slice `SbFeatureRoCompatNames` of the source, in its literal order. -/
def SbFeatureRoCompatNames : List String :=
  ["BtreeDir", "DirNlink", "ExtraIsize", "GdtCsum", "HugeFile", "LargeFile", "SparseSuper"]

/-- The map `SbFeatureRoCompatLookup` of the source. -/
def SbFeatureRoCompatLookup : List (String × Nat) :=
  [("SparseSuper", SbFeatureRoCompatSparseSuper),
   ("LargeFile", SbFeatureRoCompatLargeFile),
   ("BtreeDir", SbFeatureRoCompatBtreeDir),
   ("HugeFile", SbFeatureRoCompatHugeFile),
   ("GdtCsum", SbFeatureRoCompatGdtCsum),
   ("DirNlink", SbFeatureRoCompatDirNlink),
   ("ExtraIsize", SbFeatureRoCompatExtraIsize)]

/-- Constant `SbFeatureIncompatCompression` of the source. -/
def SbFeatureIncompatCompression : Nat := 0x0001

/-- Constant `SbFeatureIncompatFiletype` of the source. -/
def SbFeatureIncompatFiletype : Nat := 0x0002

/-- Constant `SbFeatureIncompatRecover` of the source. -/
def SbFeatureIncompatRecover : Nat := 0x0004

/-- Constant `SbFeatureIncompatJournalDev` of the source. -/
def SbFeatureIncompatJournalDev : Nat := 0x0008

/-- Constant `SbFeatureIncompatMetaBg` of the source. -/
def SbFeatureIncompatMetaBg : Nat := 0x0010

/-- Constant `SbFeatureIncompatExtents` of the source. -/
def SbFeatureIncompatExtents : Nat := 0x0040

/-- Constant `SbFeatureIncompat64bit` of the source. -/
def SbFeatureIncompat64bit : Nat := 0x0080

/-- Constant `SbFeatureIncompatMmp` of the source. -/
def SbFeatureIncompatMmp : Nat := 0x0100

/-- Constant `SbFeatureIncompatFlexBg` of the source. -/
def SbFeatureIncompatFlexBg : Nat := 0x0200

/-- The slice `SbFeatureIncompatNames` of the source, in its literal order. -/
def SbFeatureIncompatNames : List String :=
  ["64bit", "Compression", "Extents", "Filetype", "FlexBg", "JournalDev", "MetaBg",
   "Mmp", "Recover"]

/-- The map `SbFeatureIncompatLookup` of the source. -/
def SbFeatureIncompatLookup : List (String × Nat) :=
  [("Compression", SbFeatureIncompatCompression),
   ("Filetype", SbFeatureIncompatFiletype),
   ("Recover", SbFeatureIncompatRecover),
   ("JournalDev", SbFeatureIncompatJournalDev),
   ("MetaBg", SbFeatureIncompatMetaBg),
   ("Extents", SbFeatureIncompatExtents),
   ("64bit", SbFeatureIncompat64bit),
   ("Mmp", SbFeatureIncompatMmp),
   ("FlexBg", SbFeatureIncompatFlexBg)]

/-- Go map indexing `m[name]`: the value bound to the key, or the zero value
0 when the key is absent. -/
def mapGet (m : List (String × Nat)) (k : String) : Nat :=
  match m.find? (fun p => p.1 == k) with
  | some p => p.2
  | none => 0

/-- Strict lexicographic order on byte strings (the names are ASCII, so code
points and bytes agree); this is the order `sort.Strings` establishes. -/
def lexLtB : List Nat → List Nat → Bool
  | [], [] => false
  | [], _ :: _ => true
  | _ :: _, [] => false
  | a :: as, b :: bs => a < b || (a == b && lexLtB as bs)

/-- The code points of a string, for `lexLtB`. -/
def strCodes (s : String) : List Nat := s.data.map Char.toNat

/-- Test that a list of strings is strictly ascending in the lexicographic
order of `lexLtB`. -/
def sortedStrictB : List String → Bool
  | [] => true
  | [_] => true
  | a :: b :: rest => lexLtB (strCodes a) (strCodes b) && sortedStrictB (b :: rest)

/-- The accessor `HasExtended` of the source:
`sb.SRevLevel >= SbRevlevelDynamicRev`. -/
def Superblock.HasExtended (sb : Superblock) : Bool :=
  decide (SbRevlevelDynamicRev ≤ sb.SRevLevel)

/-- The accessor `BlockSize` of the source:
`uint32(math.Pow(2, (10 + float64(sb.SLogBlockSize))))`.  For these arguments
`math.Pow` is exact (a power of two is exactly representable in float64 while
the exponent is at most 1023, and past that the conversion is out of range
anyway), and the Go conversion of a float to `uint32` is only defined when the
value is representable in `uint32`; the implementation-defined out-of-range
case, reached when `2 ^ (10 + SLogBlockSize) ≥ 2 ^ 32`, is modelled as
`none`. -/
def Superblock.BlockSize (sb : Superblock) : Option Nat :=
  if 2 ^ (10 + sb.SLogBlockSize) < 2 ^ 32 then some (2 ^ (10 + sb.SLogBlockSize)) else none

/-- The accessor `HasCompatibleFeature` of the source:
`(sb.SFeatureCompat & mask) > 0`. -/
def Superblock.HasCompatibleFeature (sb : Superblock) (mask : Nat) : Bool :=
  decide (0 < Nat.land sb.SFeatureCompat mask)

/-- The accessor `HasReadonlyCompatibleFeature` of the source:
`(sb.SFeatureRoCompat & mask) > 0`. -/
def Superblock.HasReadonlyCompatibleFeature (sb : Superblock) (mask : Nat) : Bool :=
  decide (0 < Nat.land sb.SFeatureRoCompat mask)

/-- The accessor `HasIncompatibleFeature` of the source:
`(sb.SFeatureIncompat & mask) > 0`. -/
def Superblock.HasIncompatibleFeature (sb : Superblock) (mask : Nat) : Bool :=
  decide (0 < Nat.land sb.SFeatureIncompat mask)

/-- The function `ParseSuperblock` of the source: `binary.Read` decodes the
first 1024 bytes little-endian into the struct (a short source or an
underlying read error surfaces as a wrapped I/O error, modelled
`readFailure`), then the decoded magic field is compared with `Ext4Magic` and
`ErrNotExt4` (modelled `notExt4`) is raised on mismatch; otherwise the record
is returned with a nil error. -/
def ParseSuperblock (src : List Nat) : Except SbError Superblock :=
  if src.length < SuperblockSize then
    .error .readFailure
  else if (decodeFields (src.take SuperblockSize)).SMagic ≠ Ext4Magic then
    .error .notExt4
  else
    .ok (decodeFields (src.take SuperblockSize))

/-- The all-zero superblock record, for concrete instantiations. -/
def zeroSuperblock : Superblock := decodeFields (List.replicate 1024 0)

/-- A 1024-byte buffer that is zero except for a valid magic at offset 0x38. -/
def magicBuf : List Nat := List.replicate 56 0 ++ 0x53 :: 0xef :: List.replicate 966 0

/-- A 1024-byte buffer of zeros (magic 0, hence not ext4). -/
def zerosBuf : List Nat := List.replicate 1024 0

/-- A source that yields only 10 bytes. -/
def shortBuf : List Nat := List.replicate 10 0

/-- The record decoded from `magicBuf`. -/
def magicRecord : Superblock := decodeFields (magicBuf.take SuperblockSize)

/-- A record whose compatible-feature mask has exactly the has-journal bit. -/
def journalRecord : Superblock :=
  { zeroSuperblock with SFeatureCompat := SbFeatureCompatHasJournal }

/-- A record with revision level 1 and everything else zero. -/
def rev1Record : Superblock := { zeroSuperblock with SRevLevel := 1 }

/-- A record agreeing with `rev1Record` on the revision level but differing
in base-zone and extended-zone fields. -/
def rev1RecordAlt : Superblock :=
  { rev1Record with SUuid := List.replicate 16 255, SFeatureCompat := 12345,
                    SInodesCount := 7 }

theorem magicBuf_length : magicBuf.length = 1024 := by
  simp [magicBuf]

theorem magicBuf_bytes : ∀ b ∈ magicBuf, b < 256 := by
  intro b hbm
  simp only [magicBuf, List.mem_append, List.mem_cons, List.mem_replicate] at hbm
  rcases hbm with ⟨-, h⟩ | h | h | ⟨-, h⟩ <;> omega

theorem magicBuf_magic : readLE magicBuf 56 2 = Ext4Magic := by
  decide

theorem zerosBuf_length : zerosBuf.length = 1024 := by
  simp [zerosBuf]

/-- C1: on any byte source supplying at least 1024 bytes, `ParseSuperblock`
consumes exactly the first 1024 bytes (later bytes never change the result),
and a returned record decodes every field at its documented little-endian
offset with no field skipped: re-serializing the fields in declaration order
reproduces those 1024 bytes exactly, the field at offset 0x38 (= 56) is the
magic, and the trailing checksum is the 4 bytes ending at offset
0x400 (= 1024). -/
theorem parse_layout (src : List Nat) (hb : ∀ b ∈ src, b < 256)
    (hlen : SuperblockSize ≤ src.length) :
    ParseSuperblock src = ParseSuperblock (src.take SuperblockSize)
    ∧ ∀ sb, ParseSuperblock src = .ok sb →
        sb.SMagic = readLE src 56 2
        ∧ sb.SChecksum = toSigned32 (readLE src 1020 4)
        ∧ encodeSuperblock sb = src.take SuperblockSize
        ∧ (encodeSuperblock sb).length = SuperblockSize := by
  have htl : (src.take SuperblockSize).length = SuperblockSize := by
    rw [List.length_take]
    omega
  have htt : (src.take SuperblockSize).take SuperblockSize = src.take SuperblockSize := by
    rw [List.take_take, min_self]
  have h1 : ¬ (src.length < SuperblockSize) := by omega
  have h2 : ¬ ((src.take SuperblockSize).length < SuperblockSize) := by
    rw [htl]
    omega
  have hb' : ∀ b ∈ src.take SuperblockSize, b < 256 :=
    fun b hbm => hb b (List.take_subset SuperblockSize src hbm)
  constructor
  · simp only [ParseSuperblock, if_neg h1, if_neg h2, htt]
  · intro sb hok
    simp only [ParseSuperblock, if_neg h1] at hok
    by_cases hm : (decodeFields (src.take SuperblockSize)).SMagic ≠ Ext4Magic
    · rw [if_pos hm] at hok
      exact Except.noConfusion hok
    · rw [if_neg hm] at hok
      injection hok with h3
      subst h3
      have henc : encodeSuperblock (decodeFields (src.take SuperblockSize))
          = src.take SuperblockSize :=
        encode_decodeFields (src.take SuperblockSize) hb' htl
      refine ⟨?_, ?_, henc, ?_⟩
      · show readLE (src.take SuperblockSize) 56 2 = readLE src 56 2
        exact readLE_take src SuperblockSize 2 56 (by decide)
      · show toSigned32 (readLE (src.take SuperblockSize) 1020 4)
            = toSigned32 (readLE src 1020 4)
        rw [readLE_take src SuperblockSize 4 1020 (by decide)]
      · rw [henc]
        exact htl

/-- C1 witness: the layout theorem applied to a concrete 1024-byte buffer
with a valid magic. -/
theorem parse_layout_check :
    ParseSuperblock magicBuf = ParseSuperblock (magicBuf.take SuperblockSize)
    ∧ ∀ sb, ParseSuperblock magicBuf = .ok sb →
        sb.SMagic = readLE magicBuf 56 2
        ∧ sb.SChecksum = toSigned32 (readLE magicBuf 1020 4)
        ∧ encodeSuperblock sb = magicBuf.take SuperblockSize
        ∧ (encodeSuperblock sb).length = SuperblockSize :=
  parse_layout magicBuf magicBuf_bytes (by rw [magicBuf_length]; decide)

/-- C2: on every 1024-byte buffer whose little-endian 16-bit field at offset
0x38 (= 56) is 0xEF53, `ParseSuperblock` succeeds and every field of the
returned record holds exactly the bytes written at that field's offset:
re-serializing the record reproduces the buffer. -/
theorem parse_roundtrip (src : List Nat) (hb : ∀ b ∈ src, b < 256)
    (hlen : src.length = SuperblockSize)
    (hmagic : readLE src 56 2 = Ext4Magic) :
    ∃ sb, ParseSuperblock src = .ok sb ∧ encodeSuperblock sb = src
      ∧ sb.SMagic = Ext4Magic := by
  have ht : src.take SuperblockSize = src := List.take_of_length_le (by omega)
  have hm : (decodeFields src).SMagic = Ext4Magic := hmagic
  refine ⟨decodeFields src, ?_, ?_, hm⟩
  · simp only [ParseSuperblock, ht, if_neg (by omega : ¬ (src.length < SuperblockSize))]
    rw [if_neg (by simp [hm])]
  · exact encode_decodeFields src hb hlen

/-- C2 witness: round-trip on a concrete 1024-byte buffer with magic
0xEF53. -/
theorem parse_roundtrip_check :
    ∃ sb, ParseSuperblock magicBuf = .ok sb ∧ encodeSuperblock sb = magicBuf
      ∧ sb.SMagic = Ext4Magic :=
  parse_roundtrip magicBuf magicBuf_bytes magicBuf_length magicBuf_magic

/-- C3: on every byte source of at least 1024 bytes whose magic field is not
0xEF53, `ParseSuperblock` fails with `notExt4` (the `ErrNotExt4`
format-mismatch error), no record can be observed, and this error is distinct
from the I/O error kind. -/
theorem parse_bad_magic (src : List Nat) (hlen : SuperblockSize ≤ src.length)
    (hmagic : readLE src 56 2 ≠ Ext4Magic) :
    ParseSuperblock src = .error .notExt4
    ∧ (∀ sb, ParseSuperblock src ≠ .ok sb)
    ∧ SbError.notExt4 ≠ SbError.readFailure := by
  have hm : (decodeFields (src.take SuperblockSize)).SMagic ≠ Ext4Magic := by
    show readLE (src.take SuperblockSize) 56 2 ≠ Ext4Magic
    rw [readLE_take src SuperblockSize 2 56 (by decide)]
    exact hmagic
  have hmain : ParseSuperblock src = .error .notExt4 := by
    simp only [ParseSuperblock, if_neg (by omega : ¬ (src.length < SuperblockSize)),
      if_pos hm]
  exact ⟨hmain, fun sb h => by rw [hmain] at h; exact Except.noConfusion h, by decide⟩

/-- C3 witness: the all-zero 1024-byte buffer has magic 0 and is rejected
with the format-mismatch error. -/
theorem parse_bad_magic_check :
    ParseSuperblock zerosBuf = .error .notExt4
    ∧ (∀ sb, ParseSuperblock zerosBuf ≠ .ok sb)
    ∧ SbError.notExt4 ≠ SbError.readFailure :=
  parse_bad_magic zerosBuf (by rw [zerosBuf_length]; decide) (by decide)

/-- C4: on every byte source that supplies fewer than 1024 bytes (which is
how a source that ends early or reports an underlying error presents itself
to the single 1024-byte full read), `ParseSuperblock` fails with the
I/O-failure error, which is distinct from the magic-mismatch error, and no
record (with or without defaulted fields) is returned. -/
theorem parse_short (src : List Nat) (hlen : src.length < SuperblockSize) :
    ParseSuperblock src = .error .readFailure
    ∧ (∀ sb, ParseSuperblock src ≠ .ok sb)
    ∧ SbError.readFailure ≠ SbError.notExt4 := by
  have hmain : ParseSuperblock src = .error .readFailure := by
    simp only [ParseSuperblock, if_pos hlen]
  exact ⟨hmain, fun sb h => by rw [hmain] at h; exact Except.noConfusion h, by decide⟩

/-- C4 witness: a 10-byte source fails with the I/O error. -/
theorem parse_short_check :
    ParseSuperblock shortBuf = .error .readFailure
    ∧ (∀ sb, ParseSuperblock shortBuf ≠ .ok sb)
    ∧ SbError.readFailure ≠ SbError.notExt4 :=
  parse_short shortBuf (by decide)

/-- C5 counterexample: with the stored exponent 22 the claimed value
`2 ^ (10 + 22) = 2 ^ 32` does not fit in `uint32`, so `BlockSize` does not
return it (the conversion is out of range, and any `uint32` result is below
`2 ^ 32`). -/
theorem blockSize_not_pow_everywhere :
    ¬ (Superblock.BlockSize { zeroSuperblock with SLogBlockSize := 22 }
        = some (2 ^ (10 + 22))) := by
  decide

/-- C5 (amended): whenever the stored exponent is at most 21 (so that
`2 ^ (10 + SLogBlockSize)` is representable in `uint32`), `BlockSize` returns
`2 ^ (10 + SLogBlockSize)`; in particular exponent 0 gives 1024, exponent 2
gives 4096 and exponent 6 gives 65536. -/
theorem blockSize_pow (sb : Superblock) (h : sb.SLogBlockSize ≤ 21) :
    sb.BlockSize = some (2 ^ (10 + sb.SLogBlockSize))
    ∧ (sb.SLogBlockSize = 0 → sb.BlockSize = some 1024)
    ∧ (sb.SLogBlockSize = 2 → sb.BlockSize = some 4096)
    ∧ (sb.SLogBlockSize = 6 → sb.BlockSize = some 65536) := by
  have hlt : 2 ^ (10 + sb.SLogBlockSize) < 2 ^ 32 :=
    Nat.pow_lt_pow_right (by norm_num) (by omega)
  have hmain : sb.BlockSize = some (2 ^ (10 + sb.SLogBlockSize)) := by
    simp only [Superblock.BlockSize]
    rw [if_pos hlt]
  refine ⟨hmain, ?_, ?_, ?_⟩
  · intro h0
    rw [hmain, h0]
    norm_num
  · intro h2
    rw [hmain, h2]
    norm_num
  · intro h6
    rw [hmain, h6]
    norm_num

/-- C5 witness: the amended statement applied at the all-zero record. -/
theorem blockSize_pow_check :
    zeroSuperblock.SLogBlockSize ≤ 21
    ∧ (zeroSuperblock.BlockSize = some (2 ^ (10 + zeroSuperblock.SLogBlockSize))
      ∧ (zeroSuperblock.SLogBlockSize = 0 → zeroSuperblock.BlockSize = some 1024)
      ∧ (zeroSuperblock.SLogBlockSize = 2 → zeroSuperblock.BlockSize = some 4096)
      ∧ (zeroSuperblock.SLogBlockSize = 6 → zeroSuperblock.BlockSize = some 65536)) :=
  ⟨by decide, blockSize_pow zeroSuperblock (by decide)⟩

/-- C6: the three feature predicates are pure bitwise AND tests against the
corresponding stored mask, true exactly when the AND is non-zero; and a
record whose compatible mask holds only the has-journal bit satisfies
`HasCompatibleFeature` for that bit and for no other registry-listed
compatible name. -/
theorem feature_predicates (sb : Superblock) (mask : Nat) :
    (sb.HasCompatibleFeature mask = true ↔ Nat.land sb.SFeatureCompat mask ≠ 0)
    ∧ (sb.HasReadonlyCompatibleFeature mask = true ↔ Nat.land sb.SFeatureRoCompat mask ≠ 0)
    ∧ (sb.HasIncompatibleFeature mask = true ↔ Nat.land sb.SFeatureIncompat mask ≠ 0)
    ∧ (sb.SFeatureCompat = SbFeatureCompatHasJournal →
        sb.HasCompatibleFeature SbFeatureCompatHasJournal = true
        ∧ ∀ name ∈ SbFeatureCompatNames, name ≠ "HasJournal" →
            sb.HasCompatibleFeature (mapGet SbFeatureCompatLookup name) = false) := by
  refine ⟨?_, ?_, ?_, ?_⟩
  · simp [Superblock.HasCompatibleFeature, Nat.pos_iff_ne_zero]
  · simp [Superblock.HasReadonlyCompatibleFeature, Nat.pos_iff_ne_zero]
  · simp [Superblock.HasIncompatibleFeature, Nat.pos_iff_ne_zero]
  · intro h
    simp only [Superblock.HasCompatibleFeature, h]
    exact ⟨by decide, by decide⟩

/-- C6 witness: the predicate theorem applied at a record with only the
has-journal compatible bit and the has-journal mask. -/
theorem feature_predicates_check :
    (journalRecord.HasCompatibleFeature SbFeatureCompatHasJournal = true
      ↔ Nat.land journalRecord.SFeatureCompat SbFeatureCompatHasJournal ≠ 0)
    ∧ (journalRecord.HasReadonlyCompatibleFeature SbFeatureCompatHasJournal = true
      ↔ Nat.land journalRecord.SFeatureRoCompat SbFeatureCompatHasJournal ≠ 0)
    ∧ (journalRecord.HasIncompatibleFeature SbFeatureCompatHasJournal = true
      ↔ Nat.land journalRecord.SFeatureIncompat SbFeatureCompatHasJournal ≠ 0)
    ∧ (journalRecord.SFeatureCompat = SbFeatureCompatHasJournal →
        journalRecord.HasCompatibleFeature SbFeatureCompatHasJournal = true
        ∧ ∀ name ∈ SbFeatureCompatNames, name ≠ "HasJournal" →
            journalRecord.HasCompatibleFeature (mapGet SbFeatureCompatLookup name) = false) :=
  feature_predicates journalRecord SbFeatureCompatHasJournal

/-- C7: `HasExtended` is true exactly when the revision level is at least
the dynamic revision 1 (false at revision 0, true at revision 1), and its
value depends on nothing but the revision level: two records agreeing there
agree on `HasExtended`, whatever their other fields hold. -/
theorem hasExtended_spec (sb sb' : Superblock) (h : sb.SRevLevel = sb'.SRevLevel) :
    (sb.HasExtended = true ↔ SbRevlevelDynamicRev ≤ sb.SRevLevel)
    ∧ (sb.SRevLevel = SbRevlevelGoodOldRev → sb.HasExtended = false)
    ∧ (sb.SRevLevel = SbRevlevelDynamicRev → sb.HasExtended = true)
    ∧ sb.HasExtended = sb'.HasExtended := by
  refine ⟨by simp [Superblock.HasExtended], ?_, ?_, ?_⟩
  · intro h0
    simp [Superblock.HasExtended, h0, SbRevlevelGoodOldRev, SbRevlevelDynamicRev]
  · intro h1
    simp [Superblock.HasExtended, h1]
  · simp [Superblock.HasExtended, h]

/-- C7 witness: two records with revision level 1 that differ in several
other fields, including extended-zone bytes. -/
theorem hasExtended_spec_check :
    (rev1Record.HasExtended = true ↔ SbRevlevelDynamicRev ≤ rev1Record.SRevLevel)
    ∧ (rev1Record.SRevLevel = SbRevlevelGoodOldRev → rev1Record.HasExtended = false)
    ∧ (rev1Record.SRevLevel = SbRevlevelDynamicRev → rev1Record.HasExtended = true)
    ∧ rev1Record.HasExtended = rev1RecordAlt.HasExtended :=
  hasExtended_spec rev1Record rev1RecordAlt (by decide)

/-- C8: each of the three exported name listings is strictly sorted in
ascending lexical (byte) order, and each lookup map binds every listed name
to its canonical ext4 bit mask (compatible: dir-prealloc 0x1, imagic-inodes
0x2, has-journal 0x4, ext-attr 0x8, resize-inode 0x10, dir-index 0x20;
read-only-compatible: sparse-super 0x1, large-file 0x2, btree-dir 0x4,
huge-file 0x8, gdt-csum 0x10, dir-nlink 0x20, extra-isize 0x40;
incompatible: compression 0x1, filetype 0x2, needs-recovery 0x4,
journal-device 0x8, meta-bg 0x10, extents 0x40, 64bit 0x80,
multi-mount-protection 0x100, flex-bg 0x200). -/
theorem feature_registry_sorted :
    (sortedStrictB SbFeatureCompatNames = true
      ∧ sortedStrictB SbFeatureRoCompatNames = true
      ∧ sortedStrictB SbFeatureIncompatNames = true)
    ∧ (mapGet SbFeatureCompatLookup "DirPrealloc" = 0x0001
       ∧ mapGet SbFeatureCompatLookup "ImagicInodes" = 0x0002
       ∧ mapGet SbFeatureCompatLookup "HasJournal" = 0x0004
       ∧ mapGet SbFeatureCompatLookup "ExtAttr" = 0x0008
       ∧ mapGet SbFeatureCompatLookup "ResizeInode" = 0x0010
       ∧ mapGet SbFeatureCompatLookup "DirIndex" = 0x0020)
    ∧ (mapGet SbFeatureRoCompatLookup "SparseSuper" = 0x0001
       ∧ mapGet SbFeatureRoCompatLookup "LargeFile" = 0x0002
       ∧ mapGet SbFeatureRoCompatLookup "BtreeDir" = 0x0004
       ∧ mapGet SbFeatureRoCompatLookup "HugeFile" = 0x0008
       ∧ mapGet SbFeatureRoCompatLookup "GdtCsum" = 0x0010
       ∧ mapGet SbFeatureRoCompatLookup "DirNlink" = 0x0020
       ∧ mapGet SbFeatureRoCompatLookup "ExtraIsize" = 0x0040)
    ∧ (mapGet SbFeatureIncompatLookup "Compression" = 0x0001
       ∧ mapGet SbFeatureIncompatLookup "Filetype" = 0x0002
       ∧ mapGet SbFeatureIncompatLookup "Recover" = 0x0004
       ∧ mapGet SbFeatureIncompatLookup "JournalDev" = 0x0008
       ∧ mapGet SbFeatureIncompatLookup "MetaBg" = 0x0010
       ∧ mapGet SbFeatureIncompatLookup "Extents" = 0x0040
       ∧ mapGet SbFeatureIncompatLookup "64bit" = 0x0080
       ∧ mapGet SbFeatureIncompatLookup "Mmp" = 0x0100
       ∧ mapGet SbFeatureIncompatLookup "FlexBg" = 0x0200) := by
  decide

/-- C9: whatever the source, whenever `ParseSuperblock` returns normally
(the non-panicking path, modelled by the `ok` branch carrying the record and
nil error), the record's magic field equals 0xEF53. -/
theorem parse_ok_magic (src : List Nat) (sb : Superblock)
    (h : ParseSuperblock src = .ok sb) : sb.SMagic = Ext4Magic := by
  simp only [ParseSuperblock] at h
  by_cases h1 : src.length < SuperblockSize
  · rw [if_pos h1] at h
    exact Except.noConfusion h
  · rw [if_neg h1] at h
    by_cases h2 : (decodeFields (src.take SuperblockSize)).SMagic ≠ Ext4Magic
    · rw [if_pos h2] at h
      exact Except.noConfusion h
    · rw [if_neg h2] at h
      injection h with h3
      rw [← h3]
      exact not_not.mp h2

theorem parse_magicBuf : ParseSuperblock magicBuf = .ok magicRecord := by
  have h1 : ¬ (magicBuf.length < SuperblockSize) := by
    rw [magicBuf_length]
    decide
  have hm : (decodeFields (magicBuf.take SuperblockSize)).SMagic = Ext4Magic := by
    show readLE (magicBuf.take SuperblockSize) 56 2 = Ext4Magic
    rw [readLE_take magicBuf SuperblockSize 2 56 (by decide)]
    exact magicBuf_magic
  simp only [ParseSuperblock, if_neg h1]
  rw [if_neg (by simp [hm])]
  rfl

/-- C9 witness: the record parsed out of the concrete valid buffer carries
the magic 0xEF53. -/
theorem parse_ok_magic_check : magicRecord.SMagic = Ext4Magic :=
  parse_ok_magic magicBuf magicRecord parse_magicBuf

/-- C10: in each feature category every mask in the lookup map is a power of
two, the masks are pairwise distinct, the names slice (the list `Dump`
iterates over) holds exactly the keys of the lookup map with no duplicates,
and consequently every listed name resolves through the map to a non-zero
single-bit mask. -/
theorem feature_registry_bits :
    ((SbFeatureCompatLookup.map Prod.snd).Nodup
      ∧ (∀ p ∈ SbFeatureCompatLookup, ∃ k ∈ List.range 32, p.2 = 2 ^ k)
      ∧ (SbFeatureCompatLookup.map Prod.fst).Nodup
      ∧ SbFeatureCompatNames.Nodup
      ∧ (∀ n ∈ SbFeatureCompatNames, n ∈ SbFeatureCompatLookup.map Prod.fst)
      ∧ (∀ n ∈ SbFeatureCompatLookup.map Prod.fst, n ∈ SbFeatureCompatNames)
      ∧ (∀ n ∈ SbFeatureCompatNames, ∃ k ∈ List.range 32, mapGet SbFeatureCompatLookup n = 2 ^ k))
    ∧ ((SbFeatureRoCompatLookup.map Prod.snd).Nodup
      ∧ (∀ p ∈ SbFeatureRoCompatLookup, ∃ k ∈ List.range 32, p.2 = 2 ^ k)
      ∧ (SbFeatureRoCompatLookup.map Prod.fst).Nodup
      ∧ SbFeatureRoCompatNames.Nodup
      ∧ (∀ n ∈ SbFeatureRoCompatNames, n ∈ SbFeatureRoCompatLookup.map Prod.fst)
      ∧ (∀ n ∈ SbFeatureRoCompatLookup.map Prod.fst, n ∈ SbFeatureRoCompatNames)
      ∧ (∀ n ∈ SbFeatureRoCompatNames, ∃ k ∈ List.range 32, mapGet SbFeatureRoCompatLookup n = 2 ^ k))
    ∧ ((SbFeatureIncompatLookup.map Prod.snd).Nodup
      ∧ (∀ p ∈ SbFeatureIncompatLookup, ∃ k ∈ List.range 32, p.2 = 2 ^ k)
      ∧ (SbFeatureIncompatLookup.map Prod.fst).Nodup
      ∧ SbFeatureIncompatNames.Nodup
      ∧ (∀ n ∈ SbFeatureIncompatNames, n ∈ SbFeatureIncompatLookup.map Prod.fst)
      ∧ (∀ n ∈ SbFeatureIncompatLookup.map Prod.fst, n ∈ SbFeatureIncompatNames)
      ∧ (∀ n ∈ SbFeatureIncompatNames, ∃ k ∈ List.range 32, mapGet SbFeatureIncompatLookup n = 2 ^ k)) := by
  decide
